import Mathlib

/-!
Verification of the `langchain-xinference` adapter library
(`src/langchain_xinference/llms.py` and
`src/langchain_xinference/embeddings.py`) against its natural-language
specification.

The Python code is glue over a remote REST client: it merges configuration
dictionaries, probes one authentication endpoint and reshapes
streaming/non-streaming completion responses.  We shallowly embed the
Python values the adapter manipulates (JSON-like dictionaries, lists,
strings, numbers) as the inductive type `PyVal`, Python exceptions as
`PyErr`, and every fallible adapter operation as a function into
`Except PyErr _`.  The remote cluster is an oracle parameter
(`RemoteModel`, or a plain `String → PyVal` function for embeddings).
-/

/-- Shallow embedding of the Python/JSON values handled by the adapter:
`None`, booleans, integers, floats (modelled as exact rationals; the
adapter never computes with them, it only passes them through), strings,
lists and string-keyed dictionaries (association lists; keys are unique in
any dictionary produced by Python, and lookup takes the first match). -/
inductive PyVal where
  | none
  | bool (b : Bool)
  | int (n : Int)
  | float (x : Rat)
  | str (s : String)
  | list (xs : List PyVal)
  | dict (entries : List (String × PyVal))

/-- The Python exceptions the adapter code can raise. -/
inductive PyErr where
  | typeError (msg : String)
  | valueError (msg : String)
  | runtimeError (msg : String)
  | keyError (key : String)
  | indexError
  | attributeError (msg : String)
deriving DecidableEq, Repr

/-- A Python dictionary, as the adapter passes it around. -/
abbrev Dict := List (String × PyVal)

namespace PyVal

/-- Python truthiness (`bool(v)`): `None`/`False`/`0`/`0.0`/empty string/
empty list/empty dict are falsy, everything else truthy. -/
def truthy : PyVal → Bool
  | .none => false
  | .bool b => b
  | .int n => n != 0
  | .float x => x != 0
  | .str s => !s.isEmpty
  | .list xs => !xs.isEmpty
  | .dict es => !es.isEmpty

/-- Python `str(v)` as used in the adapter's f-strings.  Only the scalar
cases are ever formatted by the adapter (the remote `detail` field is a
string); containers get a placeholder rendering. -/
def pyStr : PyVal → String
  | .none => "None"
  | .bool true => "True"
  | .bool false => "False"
  | .int n => toString n
  | .float x => toString x
  | .str s => s
  | .list _ => "[...]"
  | .dict _ => "{...}"

end PyVal

/-- Python `d.get(k, default)` on a dictionary value's entry list. -/
def dictGetD (es : Dict) (k : String) (default : PyVal) : PyVal :=
  match es.lookup k with
  | some v => v
  | Option.none => default

/-- Python subscript `v[k]` with a string key: succeeds on a dictionary
containing the key, raises `KeyError` on a dictionary missing it, and
`TypeError` on non-dictionaries. -/
def dictGetItem (v : PyVal) (k : String) : Except PyErr PyVal :=
  match v with
  | .dict es =>
    match es.lookup k with
    | some x => .ok x
    | Option.none => .error (.keyError k)
  | _ => .error (.typeError "object is not subscriptable")

/-- Python subscript `v[0]`: head of a list (IndexError when empty), first
character of a string, `KeyError` on a dictionary (integer key absent),
`TypeError` otherwise. -/
def pyIndexZero (v : PyVal) : Except PyErr PyVal :=
  match v with
  | .list [] => .error .indexError
  | .list (x :: _) => .ok x
  | .str s => if s.isEmpty then .error .indexError else .ok (.str (s.take 1))
  | .dict _ => .error (.keyError "0")
  | _ => .error (.typeError "object is not subscriptable")

/-- Python dictionary merge `{**a, **b}`: the keys of `a` in order (values
taken from `b` where `b` also has the key), followed by the entries of `b`
whose keys are absent from `a`. -/
def dictMerge (a b : Dict) : Dict :=
  (a.map fun kv =>
    match b.lookup kv.1 with
    | some v => (kv.1, v)
    | Option.none => kv) ++
  b.filter fun kv => (a.lookup kv.1).isNone

/-- Python item assignment `d[k] = v`: update the entry in place when the
key is present, append it otherwise. -/
def setItem (d : Dict) (k : String) (v : PyVal) : Dict :=
  if (d.lookup k).isSome then
    d.map fun kv => if kv.1 = k then (k, v) else kv
  else
    d ++ [(k, v)]

theorem lookup_append (l₁ l₂ : List (String × PyVal)) (k : String) :
    (l₁ ++ l₂).lookup k = (l₁.lookup k).or (l₂.lookup k) := by
  induction l₁ with
  | nil => simp [List.lookup]
  | cons kv l ih =>
    obtain ⟨k0, v0⟩ := kv
    by_cases h : k = k0
    · subst h
      simp [List.lookup_cons]
    · have hbeq : (k == k0) = false := by simp [h]
      simp [List.lookup_cons, hbeq, ih]

theorem lookup_filter_of_true (l : List (String × PyVal)) (p : String × PyVal → Bool)
    (k : String) (hp : ∀ v, p (k, v) = true) :
    (l.filter p).lookup k = l.lookup k := by
  induction l with
  | nil => simp
  | cons kv l ih =>
    obtain ⟨k0, v0⟩ := kv
    by_cases h : k = k0
    · subst h
      simp [List.filter_cons, hp v0, List.lookup_cons]
    · have hbeq : (k == k0) = false := by simp [h]
      rw [List.filter_cons]
      by_cases hp0 : p (k0, v0) = true <;>
        simp [hp0, List.lookup_cons, hbeq, ih]

theorem lookup_map_override (a b : Dict) (k : String) :
    ((a.map fun kv =>
        match b.lookup kv.1 with
        | some v => (kv.1, v)
        | Option.none => kv).lookup k) =
      (a.lookup k).map (fun w => (b.lookup k).getD w) := by
  induction a with
  | nil => simp [List.lookup]
  | cons kv a ih =>
    obtain ⟨k0, v0⟩ := kv
    by_cases h : k = k0
    · subst h
      cases hb : b.lookup k <;> simp [List.lookup_cons, hb]
    · have hbeq : (k == k0) = false := by simp [h]
      cases hb : b.lookup k0 <;> simp [List.lookup_cons, hbeq, hb, ih]

/-- The merged dictionary `{**a, **b}` looks up a key in `b` first, then in
`a`: per-call overrides win on key collision. -/
theorem dictMerge_lookup (a b : Dict) (k : String) :
    (dictMerge a b).lookup k = (b.lookup k).or (a.lookup k) := by
  unfold dictMerge
  rw [lookup_append, lookup_map_override]
  cases ha : a.lookup k with
  | some w => cases hb : b.lookup k <;> simp [hb]
  | none =>
    cases hb : b.lookup k with
    | some v =>
      rw [lookup_filter_of_true _ _ _ (fun v => by simp [ha])]
      simp [hb]
    | none =>
      rw [lookup_filter_of_true _ _ _ (fun v => by simp [ha])]
      simp [hb]

theorem lookup_mapSet_self (d : Dict) (k : String) (v : PyVal)
    (hd : (d.lookup k).isSome) :
    ((d.map fun kv => if kv.1 = k then (k, v) else kv).lookup k) = some v := by
  induction d with
  | nil => simp [List.lookup] at hd
  | cons kv d ih =>
    obtain ⟨k0, v0⟩ := kv
    by_cases h : k0 = k
    · subst h
      simp [List.lookup_cons]
    · have hbeq : (k == k0) = false := by simp [Ne.symm h]
      rw [List.lookup_cons] at hd
      simp only [hbeq] at hd
      simp [List.lookup_cons, h, hbeq, ih hd]

theorem lookup_mapSet_other (d : Dict) (k k' : String) (v : PyVal) (hne : k' ≠ k) :
    ((d.map fun kv => if kv.1 = k then (k, v) else kv).lookup k') = d.lookup k' := by
  induction d with
  | nil => simp [List.lookup]
  | cons kv d ih =>
    obtain ⟨k0, v0⟩ := kv
    by_cases h : k0 = k
    · subst h
      have hbeq : (k' == k0) = false := by simp [hne]
      simp [List.lookup_cons, hbeq, ih]
    · by_cases h2 : k' = k0
      · subst h2
        simp [List.lookup_cons, h]
      · have hbeq : (k' == k0) = false := by simp [h2]
        simp [List.lookup_cons, h, hbeq, ih]

theorem setItem_lookup_self (d : Dict) (k : String) (v : PyVal) :
    (setItem d k v).lookup k = some v := by
  unfold setItem
  by_cases hd : (d.lookup k).isSome
  · simp only [hd, if_true]
    exact lookup_mapSet_self d k v hd
  · simp only [hd, Bool.false_eq_true, if_false]
    rw [lookup_append]
    rw [Option.not_isSome_iff_eq_none] at hd
    simp [hd, List.lookup]

theorem setItem_lookup_other (d : Dict) (k k' : String) (v : PyVal) (hne : k' ≠ k) :
    (setItem d k v).lookup k' = d.lookup k' := by
  unfold setItem
  by_cases hd : (d.lookup k).isSome
  · simp only [hd, if_true]
    exact lookup_mapSet_other d k k' v hne
  · simp only [hd, Bool.false_eq_true, if_false]
    rw [lookup_append]
    have hbeq : (k' == k) = false := by simp [hne]
    have h1 : ([(k, v)] : Dict).lookup k' = Option.none := by
      simp [List.lookup, hbeq]
    simp [h1]

/-! ## Completion adapter (`src/langchain_xinference/llms.py`) -/

/-- Embedding of `Xinference._call`/`_acall` lines 224-229 (268-273): the generation
options actually used by a plain completion call.  Python:
`generate_config = kwargs.get("generate_config", {})`,
`generate_config = {**self.model_kwargs, **generate_config}` and, when the
`stop` argument is truthy (a non-empty list), `generate_config["stop"] = stop`. -/
def mergedGenerateConfig (model_kwargs generate_config : Dict) (stop : List String) : Dict :=
  let gc := dictMerge model_kwargs generate_config
  if stop.isEmpty then gc else setItem gc "stop" (.list (stop.map .str))

/-- Embedding of `Xinference._stream`/`_astream` lines 359-364 (385-390): same merge as
the plain call, then `if "stream" not in generate_config or not
generate_config.get("stream", False): generate_config["stream"] = True`. -/
def streamMergedConfig (model_kwargs generate_config : Dict) (stop : List String) : Dict :=
  let gc := mergedGenerateConfig model_kwargs generate_config stop
  match gc.lookup "stream" with
  | some v => if v.truthy then gc else setItem gc "stream" (.bool true)
  | Option.none => setItem gc "stream" (.bool true)

/-- A `GenerationChunk` as built by the adapter: the token text (kept as a
`PyVal`, since `choice.get("text", "")` can in principle return any value)
and the optional `generation_info` dictionary. -/
structure GenerationChunk where
  text : PyVal
  generation_info : Option Dict

/-- Embedding of `Xinference._stream_response_to_generation_chunk` (llms.py lines
404-429): a dict fragment with truthy `choices` takes the first choice; a
dict first choice yields a chunk with its `text` and a
`finish_reason`/`logprobs` info dict, a non-dict first choice raises
`TypeError("choice type error!")`; falsy (e.g. absent or empty) `choices`
yields a chunk with empty text and no info; a non-dict fragment raises
`TypeError("stream_response type error!")`. -/
def streamResponseToGenerationChunk (stream_response : PyVal) :
    Except PyErr GenerationChunk :=
  match stream_response with
  | .dict es =>
    let choices := dictGetD es "choices" (.list [])
    if choices.truthy then
      match pyIndexZero choices with
      | .error e => .error e
      | .ok choice =>
        match choice with
        | .dict ces =>
          .ok { text := dictGetD ces "text" (.str ""),
                generation_info :=
                  some [("finish_reason", dictGetD ces "finish_reason" .none),
                        ("logprobs", dictGetD ces "logprobs" .none)] }
        | _ => .error (.typeError "choice type error!")
    else
      .ok { text := .str "", generation_info := Option.none }
  | _ => .error (.typeError "stream_response type error!")

/-- One iteration of the loop in `Xinference._stream_generate` /
`_astream_generate` (llms.py lines 309-319, 340-350): a non-dict fragment
is skipped (`isinstance` guard), `choices = chunk.get("choices", [])`, a
falsy `choices` is skipped, `choice = choices[0]` (which can raise on a
truthy non-list `choices`), a non-dict first choice is skipped, and a dict
first choice yields `choice.get("text", "")`.  Returns `some token` when
the iteration yields, `none` when it silently skips. -/
def streamGenerateStep (chunk : PyVal) : Except PyErr (Option PyVal) :=
  match chunk with
  | .dict es =>
    let choices := dictGetD es "choices" (.list [])
    if choices.truthy then
      match pyIndexZero choices with
      | .error e => .error e
      | .ok choice =>
        match choice with
        | .dict ces => .ok (some (dictGetD ces "text" (.str "")))
        | _ => .ok Option.none
    else
      .ok Option.none
  | _ => .ok Option.none

/-- Python `acc += token` where `acc` is a `str`: raises `TypeError` unless
the token is also a `str`. -/
def strConcat (acc : String) (token : PyVal) : Except PyErr String :=
  match token with
  | .str t => .ok (acc ++ t)
  | _ => .error (.typeError "can only concatenate str to str")

/-- The accumulation loop of the streaming branch of `Xinference._call` /
`_acall` (llms.py lines 232-240, 276-284): drain `_stream_generate` and
concatenate the yielded tokens into one string. -/
def callStreamLoop (acc : String) : List PyVal → Except PyErr String
  | [] => .ok acc
  | chunk :: rest =>
    match streamGenerateStep chunk with
    | .error e => .error e
    | .ok Option.none => callStreamLoop acc rest
    | .ok (some token) =>
      match strConcat acc token with
      | .error e => .error e
      | .ok acc2 => callStreamLoop acc2 rest

/-- Embedding of `completion["choices"][0]["text"]` — extraction of the non-streaming
branch of `Xinference._call` (llms.py line 244). -/
def extractFirstChoiceText (completion : PyVal) : Except PyErr PyVal := do
  let choices ← dictGetItem completion "choices"
  let choice ← pyIndexZero choices
  dictGetItem choice "text"

/-- The remote model handle returned by `client.get_model(model_uid)`,
as an oracle: `generateOnce` is the completion returned by
`model.generate` under a non-streaming config, `generateStream` the
fragment sequence it returns, in emission order, under a streaming config. -/
structure RemoteModel where
  generateOnce : String → Dict → PyVal
  generateStream : String → Dict → List PyVal

/-- The body of `Xinference._call` / `_acall` after the client check
(llms.py lines 222-244, 266-288), with the merged config already built:
`if generate_config and generate_config.get("stream")` drains the stream
and returns the concatenation, otherwise one non-streaming generate call
is made and the first choice's text is returned. -/
def callWithModel (m : RemoteModel) (prompt : String) (generate_config : Dict) :
    Except PyErr PyVal :=
  if !generate_config.isEmpty && (dictGetD generate_config "stream" .none).truthy then
    match callStreamLoop "" (m.generateStream prompt generate_config) with
    | .error e => .error e
    | .ok s => .ok (.str s)
  else
    extractFirstChoiceText (m.generateOnce prompt generate_config)

/-- Embedding of `Xinference._call` (llms.py lines 202-244): raise
`ValueError("Client is not initialized!")` when the client is `None`,
otherwise merge the options and run the call body. -/
def Xinference.call (client : Option RemoteModel) (model_kwargs : Dict)
    (prompt : String) (generate_config : Dict) (stop : List String) :
    Except PyErr PyVal :=
  match client with
  | Option.none => .error (.valueError "Client is not initialized!")
  | some m => callWithModel m prompt (mergedGenerateConfig model_kwargs generate_config stop)

/-- Embedding of `Xinference._acall` (llms.py lines 246-288): textually identical to
`_call` except that the remote calls are awaited on the async client. -/
def Xinference.acall (async_client : Option RemoteModel) (model_kwargs : Dict)
    (prompt : String) (generate_config : Dict) (stop : List String) :
    Except PyErr PyVal :=
  match async_client with
  | Option.none => .error (.valueError "Client is not initialized!")
  | some m => callWithModel m prompt (mergedGenerateConfig model_kwargs generate_config stop)

/-- The fragment loop of `Xinference._stream` / `_astream` (llms.py lines
368-376, 394-402): `if stream_resp:` skips falsy fragments, truthy ones are
converted by `_stream_response_to_generation_chunk` and yielded in order. -/
def streamChunks : List PyVal → Except PyErr (List GenerationChunk)
  | [] => .ok []
  | frag :: rest =>
    if frag.truthy then
      match streamResponseToGenerationChunk frag with
      | .error e => .error e
      | .ok c =>
        match streamChunks rest with
        | .error e => .error e
        | .ok cs => .ok (c :: cs)
    else
      streamChunks rest

/-- Embedding of `Xinference._stream` (llms.py lines 352-376): merge options forcing the
streaming flag on, check the client, then convert the remote fragment
sequence to generation chunks. -/
def Xinference.stream (client : Option RemoteModel) (model_kwargs : Dict)
    (prompt : String) (generate_config : Dict) (stop : List String) :
    Except PyErr (List GenerationChunk) :=
  match client with
  | Option.none => .error (.valueError "Client is not initialized!")
  | some m =>
    streamChunks (m.generateStream prompt (streamMergedConfig model_kwargs generate_config stop))

/-- Embedding of `Xinference._astream` (llms.py lines 378-402): textually identical to
`_stream` except that the remote calls are awaited on the async client. -/
def Xinference.astream (async_client : Option RemoteModel) (model_kwargs : Dict)
    (prompt : String) (generate_config : Dict) (stop : List String) :
    Except PyErr (List GenerationChunk) :=
  match async_client with
  | Option.none => .error (.valueError "Client is not initialized!")
  | some m =>
    streamChunks (m.generateStream prompt (streamMergedConfig model_kwargs generate_config stop))

/-! ## Authentication probe and construction, shared by both adapters -/

/-- Embedding of `Xinference._check_cluster_authenticated` (llms.py lines 191-200):
given the status code and the JSON body of `GET /v1/cluster/auth`, a 404
leaves the cluster unauthenticated, any other non-200 status raises
`RuntimeError` with the remote-supplied `detail` field interpolated into
the message (a missing `detail` key raises `KeyError`), and a 200 stores
`bool(response_data["auth"])`. -/
def Xinference.checkClusterAuthenticated (status : Nat) (body : Dict) :
    Except PyErr Bool :=
  if status = 404 then .ok false
  else if status ≠ 200 then
    match body.lookup "detail" with
    | some d =>
      .error (.runtimeError ("Failed to get cluster information, detail: " ++ d.pyStr))
    | Option.none => .error (.keyError "detail")
  else
    match body.lookup "auth" with
    | some a => .ok a.truthy
    | Option.none => .error (.keyError "auth")

/-- Embedding of `XinferenceEmbeddings._check_cluster_authenticated` (embeddings.py
lines 125-135): textually identical to the completion adapter's probe. -/
def XinferenceEmbeddings.checkClusterAuthenticated (status : Nat) (body : Dict) :
    Except PyErr Bool :=
  if status = 404 then .ok false
  else if status ≠ 200 then
    match body.lookup "detail" with
    | some d =>
      .error (.runtimeError ("Failed to get cluster information, detail: " ++ d.pyStr))
    | Option.none => .error (.keyError "detail")
  else
    match body.lookup "auth" with
    | some a => .ok a.truthy
    | Option.none => .error (.keyError "auth")

/-- The header-attachment logic of `Xinference.__init__` (llms.py lines
165-169): `self._headers = {}`, run the auth probe, then
`if api_key is not None and self._cluster_authed:
self._headers["Authorization"] = f"Bearer {api_key}"`.  Returns the
resulting header list. -/
def Xinference.initHeaders (api_key : Option String) (status : Nat) (body : Dict) :
    Except PyErr (List (String × String)) :=
  match Xinference.checkClusterAuthenticated status body with
  | .error e => .error e
  | .ok authed =>
    match api_key with
    | some key => if authed then .ok [("Authorization", "Bearer " ++ key)] else .ok []
    | Option.none => .ok []

/-- The header-attachment logic of `XinferenceEmbeddings.__init__`
(embeddings.py lines 113-117), textually identical to the completion
adapter's. -/
def XinferenceEmbeddings.initHeaders (api_key : Option String) (status : Nat) (body : Dict) :
    Except PyErr (List (String × String)) :=
  match XinferenceEmbeddings.checkClusterAuthenticated status body with
  | .error e => .error e
  | .ok authed =>
    match api_key with
    | some key => if authed then .ok [("Authorization", "Bearer " ++ key)] else .ok []
    | Option.none => .ok []

/-- The required-parameter checks of `Xinference.__init__` (llms.py lines
159-163): `ValueError` when `server_url` is `None`, then `ValueError` when
`model_uid` is `None`. -/
def Xinference.initRequiredParams (server_url model_uid : Option String) :
    Except PyErr Unit :=
  match server_url with
  | Option.none => .error (.valueError "Please provide server URL")
  | some _ =>
    match model_uid with
    | Option.none => .error (.valueError "Please provide the model UID")
    | some _ => .ok ()

/-- The required-parameter checks of `XinferenceEmbeddings.__init__`
(embeddings.py lines 103-107), textually identical to the completion
adapter's. -/
def XinferenceEmbeddings.initRequiredParams (server_url model_uid : Option String) :
    Except PyErr Unit :=
  match server_url with
  | Option.none => .error (.valueError "Please provide server URL")
  | some _ =>
    match model_uid with
    | Option.none => .error (.valueError "Please provide the model UID")
    | some _ => .ok ()

/-! ## Embedding adapter (`src/langchain_xinference/embeddings.py`) -/

/-- Python `float(v)` on the values the remote embedding endpoint returns:
numbers convert exactly (floats are carried as exact rationals), booleans
to 0/1, and non-numeric values raise. -/
def pyFloat (v : PyVal) : Except PyErr Rat :=
  match v with
  | .int n => .ok (n : Rat)
  | .float x => .ok x
  | .bool b => .ok (if b then 1 else 0)
  | .str _ => .error (.valueError "could not convert string to float")
  | _ => .error (.typeError "float() argument must be a number")

/-- Python `list(map(float, e))` on an embedding value: `e` must be a list
(the remote contract guarantees `{"data": [{"embedding": [number, ...]}]}`)
and each component must convert with `float`. -/
def pyFloatList (e : PyVal) : Except PyErr (List Rat) :=
  match e with
  | .list xs => xs.mapM pyFloat
  | _ => .error (.typeError "object is not iterable")

/-- Embedding of `model.create_embedding(text)["data"][0]["embedding"]`
(embeddings.py line 147): the per-text extraction applied to one remote
response. -/
def extractEmbedding (resp : PyVal) : Except PyErr PyVal := do
  let d ← dictGetItem resp "data"
  let first ← pyIndexZero d
  dictGetItem first "embedding"

/-- First stage of `XinferenceEmbeddings.embed_documents` (embeddings.py
line 147): the list comprehension
`[model.create_embedding(text)["data"][0]["embedding"] for text in texts]`.
The first component of the result records every argument passed to
`create_embedding`, in call order (the trace stops at the first raising
extraction, as the comprehension does). -/
def embedStageOne (create_embedding : String → PyVal) :
    List String → List String × Except PyErr (List PyVal)
  | [] => ([], .ok [])
  | t :: ts =>
    match extractEmbedding (create_embedding t) with
    | .error e => ([t], .error e)
    | .ok v =>
      match embedStageOne create_embedding ts with
      | (trace, .error e) => (t :: trace, .error e)
      | (trace, .ok vs) => (t :: trace, .ok (v :: vs))

/-- Embedding of `XinferenceEmbeddings.embed_documents` (embeddings.py lines 137-148):
extract one embedding per input text, then
`[list(map(float, e)) for e in embeddings]`. -/
def XinferenceEmbeddings.embedDocuments (create_embedding : String → PyVal)
    (texts : List String) : Except PyErr (List (List Rat)) :=
  match embedStageOne create_embedding texts with
  | (_, .error e) => .error e
  | (_, .ok embeddings) => embeddings.mapM pyFloatList

/-- The remote-call trace of `embed_documents`: the arguments passed to
`create_embedding`, in order. -/
def XinferenceEmbeddings.embedDocumentsTrace (create_embedding : String → PyVal)
    (texts : List String) : List String :=
  (embedStageOne create_embedding texts).1

/-- Embedding of `XinferenceEmbeddings.embed_query` (embeddings.py lines 163-177): one
remote call, extract, convert to floats. -/
def XinferenceEmbeddings.embedQuery (create_embedding : String → PyVal)
    (text : String) : Except PyErr (List Rat) :=
  match extractEmbedding (create_embedding text) with
  | .error e => .error e
  | .ok e => pyFloatList e

/-- Embedding of `XinferenceEmbeddings.aembed_documents` (embeddings.py lines 150-161):
unlike the completion adapter's async operations, there is no
`is None` guard — `await self.async_client.get_model(...)` on an absent
(`None`) handle raises
`AttributeError("'NoneType' object has no attribute 'get_model'")`. -/
def XinferenceEmbeddings.aembedDocuments (async_client : Option (String → PyVal))
    (texts : List String) : Except PyErr (List (List Rat)) :=
  match async_client with
  | Option.none =>
    .error (.attributeError "'NoneType' object has no attribute 'get_model'")
  | some create_embedding => XinferenceEmbeddings.embedDocuments create_embedding texts

/-- Embedding of `XinferenceEmbeddings.aembed_query` (embeddings.py lines 179-193):
same shape as `aembed_documents`, and likewise without a `None` guard. -/
def XinferenceEmbeddings.aembedQuery (async_client : Option (String → PyVal))
    (text : String) : Except PyErr (List Rat) :=
  match async_client with
  | Option.none =>
    .error (.attributeError "'NoneType' object has no attribute 'get_model'")
  | some create_embedding => XinferenceEmbeddings.embedQuery create_embedding text

/-! ## General lemmas about the embedded operations -/

theorem string_foldl_append (l : List String) (init : String) :
    l.foldl (fun acc s => acc ++ s) init = init ++ String.join l := by
  induction l generalizing init with
  | nil => simp [String.join]
  | cons s l ih =>
    show l.foldl (fun acc s => acc ++ s) (init ++ s) = init ++ String.join (s :: l)
    rw [ih]
    have : String.join (s :: l) = s ++ String.join l := by
      show (s :: l).foldl (fun acc t => acc ++ t) "" = s ++ String.join l
      show l.foldl (fun acc t => acc ++ t) ("" ++ s) = s ++ String.join l
      rw [ih]
      simp
    rw [this, String.append_assoc]

theorem string_join_cons (s : String) (l : List String) :
    String.join (s :: l) = s ++ String.join l := by
  show (s :: l).foldl (fun acc t => acc ++ t) "" = s ++ String.join l
  show l.foldl (fun acc t => acc ++ t) ("" ++ s) = s ++ String.join l
  rw [string_foldl_append]
  simp

theorem lookup_some_truthy_dict (es : Dict) (k : String) (v : PyVal)
    (h : es.lookup k = some v) : (PyVal.dict es).truthy = true := by
  cases es with
  | nil => simp [List.lookup] at h
  | cons kv l => simp [PyVal.truthy]

/-! ## Claims -/

/-- C7: constructing either adapter (`XinferenceEmbeddings` or `Xinference`)
with the cluster address missing, the model identifier missing, or both
missing, fails with a configuration error (`ValueError`), for all
permutations of the two missing parameters. -/
theorem claim_C7 (server_url model_uid : Option String)
    (h : server_url = Option.none ∨ model_uid = Option.none) :
    (∃ msg, Xinference.initRequiredParams server_url model_uid =
      .error (.valueError msg))
    ∧ (∃ msg, XinferenceEmbeddings.initRequiredParams server_url model_uid =
      .error (.valueError msg)) := by
  cases server_url with
  | none =>
    exact ⟨⟨"Please provide server URL", rfl⟩, ⟨"Please provide server URL", rfl⟩⟩
  | some s =>
    cases model_uid with
    | none =>
      exact ⟨⟨"Please provide the model UID", rfl⟩, ⟨"Please provide the model UID", rfl⟩⟩
    | some m =>
      rcases h with h | h <;> exact absurd h (by simp)

/-- Witness for C7 at a concrete input: the cluster address missing and
the model identifier supplied. -/
theorem claim_C7_witness :
    (∃ msg, Xinference.initRequiredParams Option.none (some "uid") =
      .error (.valueError msg))
    ∧ (∃ msg, XinferenceEmbeddings.initRequiredParams Option.none (some "uid") =
      .error (.valueError msg)) :=
  claim_C7 Option.none (some "uid") (Or.inl rfl)

/-- C6: for either adapter's construction, when the auth probe returns 404
no bearer credential header is attached even if a credential was supplied;
when it returns success with `auth` true and a credential was supplied the
bearer header is attached; when it returns `auth` false no header is
attached regardless of whether a credential was supplied. -/
theorem claim_C6 (key : String) (body : Dict) :
    (Xinference.initHeaders (some key) 404 body = .ok []
      ∧ XinferenceEmbeddings.initHeaders (some key) 404 body = .ok [])
    ∧ (body.lookup "auth" = some (.bool true) →
        Xinference.initHeaders (some key) 200 body =
          .ok [("Authorization", "Bearer " ++ key)]
        ∧ XinferenceEmbeddings.initHeaders (some key) 200 body =
          .ok [("Authorization", "Bearer " ++ key)])
    ∧ (body.lookup "auth" = some (.bool false) →
        ∀ api_key : Option String,
          Xinference.initHeaders api_key 200 body = .ok []
          ∧ XinferenceEmbeddings.initHeaders api_key 200 body = .ok []) := by
  refine ⟨⟨rfl, rfl⟩, ?_, ?_⟩
  · intro hauth
    constructor <;>
      simp [Xinference.initHeaders, XinferenceEmbeddings.initHeaders,
        Xinference.checkClusterAuthenticated,
        XinferenceEmbeddings.checkClusterAuthenticated, hauth, PyVal.truthy]
  · intro hauth api_key
    cases api_key <;>
      constructor <;>
        simp [Xinference.initHeaders, XinferenceEmbeddings.initHeaders,
          Xinference.checkClusterAuthenticated,
          XinferenceEmbeddings.checkClusterAuthenticated, hauth, PyVal.truthy]

/-- Witness for C6 at concrete inputs: a 404 probe with a supplied
credential attaches nothing, a 200 probe with `auth` true attaches the
bearer header, and a 200 probe with `auth` false attaches nothing even
with a credential supplied. -/
theorem claim_C6_witness :
    Xinference.initHeaders (some "k") 404 [("auth", PyVal.bool true)] = .ok []
    ∧ Xinference.initHeaders (some "k") 200 [("auth", PyVal.bool true)] =
        .ok [("Authorization", "Bearer " ++ "k")]
    ∧ XinferenceEmbeddings.initHeaders (some "k") 200 [("auth", PyVal.bool false)] =
        .ok [] :=
  ⟨(claim_C6 "k" [("auth", PyVal.bool true)]).1.1,
   ((claim_C6 "k" [("auth", PyVal.bool true)]).2.1 rfl).1,
   (((claim_C6 "k" [("auth", PyVal.bool false)]).2.2 rfl) (some "k")).2⟩

/-- C5: for every auth-probe response whose status is neither 404 nor the
success status 200, construction of either adapter fails with a fatal
`RuntimeError` whose message contains the remote-supplied `detail` field;
probe outcomes of 404, or of 200 with the contractual `auth` field, never
raise. -/
theorem claim_C5 (status : Nat) (body : Dict) (d : PyVal)
    (h404 : status ≠ 404) (h200 : status ≠ 200)
    (hd : body.lookup "detail" = some d) :
    (Xinference.checkClusterAuthenticated status body =
        .error (.runtimeError ("Failed to get cluster information, detail: " ++ d.pyStr))
      ∧ XinferenceEmbeddings.checkClusterAuthenticated status body =
        .error (.runtimeError ("Failed to get cluster information, detail: " ++ d.pyStr)))
    ∧ (∀ b : Dict, Xinference.checkClusterAuthenticated 404 b = .ok false
        ∧ XinferenceEmbeddings.checkClusterAuthenticated 404 b = .ok false)
    ∧ (∀ (b : Dict) (a : PyVal), b.lookup "auth" = some a →
        Xinference.checkClusterAuthenticated 200 b = .ok a.truthy
        ∧ XinferenceEmbeddings.checkClusterAuthenticated 200 b = .ok a.truthy) := by
  refine ⟨?_, fun b => ⟨rfl, rfl⟩, fun b a ha => ?_⟩
  · constructor <;>
      simp [Xinference.checkClusterAuthenticated,
        XinferenceEmbeddings.checkClusterAuthenticated, h404, h200, hd]
  · constructor <;>
      simp [Xinference.checkClusterAuthenticated,
        XinferenceEmbeddings.checkClusterAuthenticated, ha]

/-- Witness for C5 at a concrete input: a 500 probe response with a
`detail` field raises the `RuntimeError` carrying that detail, a 404
probe returns cleanly, and a 200 probe with `auth` true returns cleanly. -/
theorem claim_C5_witness :
    (Xinference.checkClusterAuthenticated 500 [("detail", PyVal.str "boom")] =
        .error (.runtimeError ("Failed to get cluster information, detail: " ++
          (PyVal.str "boom").pyStr))
      ∧ XinferenceEmbeddings.checkClusterAuthenticated 500 [("detail", PyVal.str "boom")] =
        .error (.runtimeError ("Failed to get cluster information, detail: " ++
          (PyVal.str "boom").pyStr)))
    ∧ (Xinference.checkClusterAuthenticated 404 [] = .ok false)
    ∧ (Xinference.checkClusterAuthenticated 200 [("auth", PyVal.bool true)] =
        .ok (PyVal.bool true).truthy) :=
  ⟨(claim_C5 500 [("detail", PyVal.str "boom")] (PyVal.str "boom")
      (by decide) (by decide) rfl).1,
   ((claim_C5 500 [("detail", PyVal.str "boom")] (PyVal.str "boom")
      (by decide) (by decide) rfl).2.1 []).1,
   ((claim_C5 500 [("detail", PyVal.str "boom")] (PyVal.str "boom")
      (by decide) (by decide) rfl).2.2 [("auth", PyVal.bool true)]
      (PyVal.bool true) rfl).1⟩

/-- C3 counterexample: with the non-blocking client handle absent,
`XinferenceEmbeddings.aembed_documents` does not fail with the adapter's
uninitialized-client error (`ValueError("Client is not initialized!")`,
as `Xinference._acall`/`_astream` do): embeddings.py line 158 performs no
`None` check, so the call fails with an `AttributeError` from accessing
`get_model` on the absent (`None`) handle. -/
theorem claim_C3_counterexample :
    XinferenceEmbeddings.aembedDocuments Option.none ["a"] =
      .error (.attributeError "'NoneType' object has no attribute 'get_model'")
    ∧ PyErr.attributeError "'NoneType' object has no attribute 'get_model'" ≠
        PyErr.valueError "Client is not initialized!"
    ∧ Xinference.acall Option.none [] "p" [] [] =
        .error (.valueError "Client is not initialized!") :=
  ⟨rfl, by decide, rfl⟩

/-- C3 as amended: when the non-blocking client handle is absent, the
completion adapter's `_acall` and `_astream` fail with the explicit
uninitialized-client `ValueError`, while the embedding adapter's
`aembed_documents` and `aembed_query` perform no such check and fail with
an `AttributeError` from dereferencing the absent handle; in all four
cases the operation raises rather than silently returning empty output. -/
theorem claim_C3_amended (model_kwargs generate_config : Dict) (prompt : String)
    (stop : List String) (texts : List String) (text : String) :
    Xinference.acall Option.none model_kwargs prompt generate_config stop =
      .error (.valueError "Client is not initialized!")
    ∧ Xinference.astream Option.none model_kwargs prompt generate_config stop =
      .error (.valueError "Client is not initialized!")
    ∧ XinferenceEmbeddings.aembedDocuments Option.none texts =
      .error (.attributeError "'NoneType' object has no attribute 'get_model'")
    ∧ XinferenceEmbeddings.aembedQuery Option.none text =
      .error (.attributeError "'NoneType' object has no attribute 'get_model'") :=
  ⟨rfl, rfl, rfl, rfl⟩

/-- The options built by `_stream`/`_astream` always carry a truthy
`stream` entry, whatever the defaults, call config and stop list. -/
theorem streamMergedConfig_stream_on (model_kwargs generate_config : Dict)
    (stop : List String) :
    ∃ v, (streamMergedConfig model_kwargs generate_config stop).lookup "stream" = some v
      ∧ v.truthy = true := by
  cases hl : (mergedGenerateConfig model_kwargs generate_config stop).lookup "stream" with
  | none =>
    have heq : streamMergedConfig model_kwargs generate_config stop =
        setItem (mergedGenerateConfig model_kwargs generate_config stop) "stream"
          (.bool true) := by
      simp [streamMergedConfig, hl]
    rw [heq]
    exact ⟨.bool true, setItem_lookup_self _ "stream" (.bool true), rfl⟩
  | some v =>
    by_cases hv : v.truthy = true
    · have heq : streamMergedConfig model_kwargs generate_config stop =
          mergedGenerateConfig model_kwargs generate_config stop := by
        simp [streamMergedConfig, hl, hv]
      rw [heq]
      exact ⟨v, hl, hv⟩
    · have hv' : v.truthy = false := by
        revert hv
        cases v.truthy <;> simp
      have heq : streamMergedConfig model_kwargs generate_config stop =
          setItem (mergedGenerateConfig model_kwargs generate_config stop) "stream"
            (.bool true) := by
        simp [streamMergedConfig, hl, hv']
      rw [heq]
      exact ⟨.bool true, setItem_lookup_self _ "stream" (.bool true), rfl⟩

/-- The fragment loop of `_stream`/`_astream` is exactly: keep the truthy
fragments in order and convert each with
`_stream_response_to_generation_chunk`. -/
theorem streamChunks_eq_filter_mapM (frags : List PyVal) :
    streamChunks frags =
      (frags.filter PyVal.truthy).mapM streamResponseToGenerationChunk := by
  induction frags with
  | nil => rfl
  | cons f rest ih =>
    by_cases hf : f.truthy = true
    · rw [List.filter_cons, if_pos hf, List.mapM_cons]
      cases hc : streamResponseToGenerationChunk f with
      | error e =>
        simp only [streamChunks, hf, hc, if_true]
        rfl
      | ok c =>
        rw [← ih]
        cases hrest : streamChunks rest with
        | error e2 =>
          simp only [streamChunks, hf, hc, hrest, if_true]
          rfl
        | ok cs =>
          simp only [streamChunks, hf, hc, hrest, if_true]
          rfl
    · have hf' : f.truthy = false := by
        revert hf
        cases f.truthy <;> simp
      rw [List.filter_cons, if_neg (by simp [hf'])]
      simp [streamChunks, hf']
      exact ih

/-- C9: for every caller-supplied generate config (including one with
`stream` absent or explicitly falsy), the chunk-streaming operations
`_stream`/`_astream` pass options to the remote call in which the
streaming flag is on (a truthy `stream` entry), and the chunks are yielded
in exactly the order the remote fragments are received. -/
theorem claim_C9 (model_kwargs generate_config : Dict) (stop : List String) :
    (∃ v, (streamMergedConfig model_kwargs generate_config stop).lookup "stream" = some v
        ∧ v.truthy = true)
    ∧ ∀ frags : List PyVal,
        streamChunks frags =
          (frags.filter PyVal.truthy).mapM streamResponseToGenerationChunk :=
  ⟨streamMergedConfig_stream_on model_kwargs generate_config stop,
   fun frags => streamChunks_eq_filter_mapM frags⟩

/-- C10: in the chunk-streaming operations a falsy remote fragment (for
example an empty mapping) is skipped before conversion and yields no chunk
at all, while a fragment containing a `choices` key with an empty list is
necessarily a truthy mapping and yields exactly one chunk with empty text
and no metadata. -/
theorem claim_C10 (f : PyVal) (frags : List PyVal) (hf : f.truthy = false)
    (es : Dict) (hch : es.lookup "choices" = some (.list [])) :
    streamChunks (f :: frags) = streamChunks frags
    ∧ (PyVal.dict es).truthy = true
    ∧ streamResponseToGenerationChunk (.dict es) =
        .ok { text := .str "", generation_info := Option.none }
    ∧ streamChunks (.dict es :: frags) =
        (streamChunks frags).map
          (fun cs => { text := .str "", generation_info := Option.none } :: cs) := by
  have htr : (PyVal.dict es).truthy = true := lookup_some_truthy_dict es "choices" _ hch
  have hconv : streamResponseToGenerationChunk (.dict es) =
      .ok { text := .str "", generation_info := Option.none } := by
    simp [streamResponseToGenerationChunk, dictGetD, hch, PyVal.truthy]
  refine ⟨by simp [streamChunks, hf], htr, hconv, ?_⟩
  cases hrest : streamChunks frags <;>
    simp [streamChunks, htr, hconv, hrest, Except.map]

/-- Witness for C10 at concrete inputs: the falsy fragment `{}` is
skipped, and the truthy fragment `{"choices": []}` yields exactly the one
empty chunk. -/
theorem claim_C10_witness :
    streamChunks [PyVal.dict []] = streamChunks []
    ∧ (PyVal.dict [("choices", PyVal.list [])]).truthy = true
    ∧ streamResponseToGenerationChunk (PyVal.dict [("choices", PyVal.list [])]) =
        .ok { text := .str "", generation_info := Option.none }
    ∧ streamChunks [PyVal.dict [("choices", PyVal.list [])]] =
        (streamChunks []).map
          (fun cs => { text := .str "", generation_info := Option.none } :: cs) :=
  claim_C10 (PyVal.dict []) [] rfl [("choices", PyVal.list [])] rfl

/-- C2 counterexample: a streaming fragment whose `choices` list is
non-empty but whose first entry is not a mapping does NOT make every
completion operation fail fast.  The accumulating plain-call path
(`_call` via `_stream_generate`, llms.py line 314) silently skips such a
fragment and returns normally, while only the chunked-stream conversion
(llms.py line 425) raises the type error. -/
theorem claim_C2_counterexample :
    callStreamLoop "" [PyVal.dict [("choices", PyVal.list [PyVal.int 42])]] = .ok ""
    ∧ Xinference.call
        (some { generateOnce := fun _ _ => PyVal.none,
                generateStream := fun _ _ => [PyVal.dict [("choices", PyVal.list [PyVal.int 42])]] })
        [] "p" [("stream", PyVal.bool true)] [] = .ok (.str "")
    ∧ streamResponseToGenerationChunk (PyVal.dict [("choices", PyVal.list [PyVal.int 42])]) =
        .error (.typeError "choice type error!") :=
  ⟨rfl, rfl, rfl⟩

/-- C2 as amended: for a streaming fragment whose `choices` list is
non-empty but whose first entry is not a mapping, the chunked-stream
conversion fails fast with a type error naming the offending field
(`"choice type error!"`), while the accumulating plain-call path silently
skips the fragment and contributes nothing; for a fragment whose `choices`
list is empty, the chunked-stream conversion yields exactly one chunk with
empty text and no metadata (not zero chunks), while the plain-call path
contributes nothing. -/
theorem claim_C2_amended (es : Dict) (c : PyVal) (cs : List PyVal)
    (hch : es.lookup "choices" = some (.list (c :: cs)))
    (hc : ∀ ces : Dict, c ≠ .dict ces) :
    streamResponseToGenerationChunk (.dict es) = .error (.typeError "choice type error!")
    ∧ streamGenerateStep (.dict es) = .ok Option.none
    ∧ (∀ es2 : Dict, es2.lookup "choices" = some (.list []) →
        streamResponseToGenerationChunk (.dict es2) =
          .ok { text := .str "", generation_info := Option.none }
        ∧ (∀ rest cs2, streamChunks rest = .ok cs2 →
            streamChunks (.dict es2 :: rest) =
              .ok ({ text := .str "", generation_info := Option.none } :: cs2))
        ∧ streamGenerateStep (.dict es2) = .ok Option.none) := by
  have hbad : streamResponseToGenerationChunk (.dict es) =
      .error (.typeError "choice type error!") := by
    cases c with
    | dict ces => exact absurd rfl (hc ces)
    | none => simp [streamResponseToGenerationChunk, dictGetD, hch, PyVal.truthy, pyIndexZero]
    | bool b => simp [streamResponseToGenerationChunk, dictGetD, hch, PyVal.truthy, pyIndexZero]
    | int n => simp [streamResponseToGenerationChunk, dictGetD, hch, PyVal.truthy, pyIndexZero]
    | float x => simp [streamResponseToGenerationChunk, dictGetD, hch, PyVal.truthy, pyIndexZero]
    | str s => simp [streamResponseToGenerationChunk, dictGetD, hch, PyVal.truthy, pyIndexZero]
    | list xs => simp [streamResponseToGenerationChunk, dictGetD, hch, PyVal.truthy, pyIndexZero]
  have hskip : streamGenerateStep (.dict es) = .ok Option.none := by
    cases c with
    | dict ces => exact absurd rfl (hc ces)
    | none => simp [streamGenerateStep, dictGetD, hch, PyVal.truthy, pyIndexZero]
    | bool b => simp [streamGenerateStep, dictGetD, hch, PyVal.truthy, pyIndexZero]
    | int n => simp [streamGenerateStep, dictGetD, hch, PyVal.truthy, pyIndexZero]
    | float x => simp [streamGenerateStep, dictGetD, hch, PyVal.truthy, pyIndexZero]
    | str s => simp [streamGenerateStep, dictGetD, hch, PyVal.truthy, pyIndexZero]
    | list xs => simp [streamGenerateStep, dictGetD, hch, PyVal.truthy, pyIndexZero]
  refine ⟨hbad, hskip, fun es2 hch2 => ?_⟩
  have htr : (PyVal.dict es2).truthy = true := lookup_some_truthy_dict es2 "choices" _ hch2
  have hconv : streamResponseToGenerationChunk (.dict es2) =
      .ok { text := .str "", generation_info := Option.none } := by
    simp [streamResponseToGenerationChunk, dictGetD, hch2, PyVal.truthy]
  refine ⟨hconv, fun rest cs2 hrest => ?_, ?_⟩
  · simp [streamChunks, htr, hconv, hrest]
  · simp [streamGenerateStep, dictGetD, hch2, PyVal.truthy]

/-- Witness for C2 (amended) at concrete inputs: the fragment
`{"choices": [42]}` raises the choice type error in the chunked-stream
conversion and is skipped by the plain path, and the fragment
`{"choices": []}` yields exactly one empty chunk. -/
theorem claim_C2_witness :
    streamResponseToGenerationChunk (PyVal.dict [("choices", PyVal.list [PyVal.int 42])]) =
      .error (.typeError "choice type error!")
    ∧ streamGenerateStep (PyVal.dict [("choices", PyVal.list [PyVal.int 42])]) =
      .ok Option.none
    ∧ (streamResponseToGenerationChunk (PyVal.dict [("choices", PyVal.list [])]) =
        .ok { text := .str "", generation_info := Option.none }
      ∧ streamChunks [PyVal.dict [("choices", PyVal.list [])]] =
        .ok [{ text := .str "", generation_info := Option.none }]
      ∧ streamGenerateStep (PyVal.dict [("choices", PyVal.list [])]) = .ok Option.none) := by
  have h := claim_C2_amended [("choices", PyVal.list [PyVal.int 42])] (PyVal.int 42) []
    rfl (fun ces hne => PyVal.noConfusion hne)
  have h2 := h.2.2 [("choices", PyVal.list [])] rfl
  exact ⟨h.1, h.2.1, h2.1, h2.2.1 [] [] rfl, h2.2.2⟩

/-- The `_stream`/`_astream` option dictionary agrees with the plain merge
on every key other than `stream`. -/
theorem streamMergedConfig_lookup_other (model_kwargs generate_config : Dict)
    (stop : List String) (k : String) (hk : k ≠ "stream") :
    (streamMergedConfig model_kwargs generate_config stop).lookup k =
      (mergedGenerateConfig model_kwargs generate_config stop).lookup k := by
  cases hl : (mergedGenerateConfig model_kwargs generate_config stop).lookup "stream" with
  | none =>
    have heq : streamMergedConfig model_kwargs generate_config stop =
        setItem (mergedGenerateConfig model_kwargs generate_config stop) "stream"
          (.bool true) := by
      simp [streamMergedConfig, hl]
    rw [heq]
    exact setItem_lookup_other _ "stream" k _ hk
  | some v =>
    by_cases hv : v.truthy = true
    · have heq : streamMergedConfig model_kwargs generate_config stop =
          mergedGenerateConfig model_kwargs generate_config stop := by
        simp [streamMergedConfig, hl, hv]
      rw [heq]
    · have hv' : v.truthy = false := by
        revert hv
        cases v.truthy <;> simp
      have heq : streamMergedConfig model_kwargs generate_config stop =
          setItem (mergedGenerateConfig model_kwargs generate_config stop) "stream"
            (.bool true) := by
        simp [streamMergedConfig, hl, hv']
      rw [heq]
      exact setItem_lookup_other _ "stream" k _ hk

/-- C4 counterexample: the chunked-stream operations do not pass exactly
the merge of construction-time defaults and call-time config.  With empty
defaults, empty call config and no stop list, the plain merge is empty,
yet `_stream` passes options containing a forced `stream` entry. -/
theorem claim_C4_counterexample :
    (streamMergedConfig [] [] []).lookup "stream" = some (PyVal.bool true)
    ∧ (dictMerge ([] : Dict) ([] : Dict)).lookup "stream" = Option.none
    ∧ mergedGenerateConfig [] [] [] = dictMerge ([] : Dict) ([] : Dict) :=
  ⟨rfl, rfl, rfl⟩

/-- C4 as amended: for every completion call the options passed to the
remote generate call equal the construction-time defaults overridden by
the call-time generate config (call-time wins on key collision), except
that a non-empty explicit stop list overrides the `stop` entry, and the
chunked-stream operations additionally force the `stream` entry to a
truthy value when it is absent or falsy. -/
theorem claim_C4_amended (model_kwargs generate_config : Dict) (stop : List String) :
    (∀ k, k ≠ "stop" →
      (mergedGenerateConfig model_kwargs generate_config stop).lookup k =
        (generate_config.lookup k).or (model_kwargs.lookup k))
    ∧ (stop ≠ [] →
        (mergedGenerateConfig model_kwargs generate_config stop).lookup "stop" =
          some (.list (stop.map .str))
        ∧ (streamMergedConfig model_kwargs generate_config stop).lookup "stop" =
          some (.list (stop.map .str)))
    ∧ (stop = [] →
        mergedGenerateConfig model_kwargs generate_config stop =
          dictMerge model_kwargs generate_config)
    ∧ (∀ k, k ≠ "stop" → k ≠ "stream" →
        (streamMergedConfig model_kwargs generate_config stop).lookup k =
          (generate_config.lookup k).or (model_kwargs.lookup k))
    ∧ (∃ v, (streamMergedConfig model_kwargs generate_config stop).lookup "stream" = some v
        ∧ v.truthy = true) := by
  have hmerge : ∀ k, k ≠ "stop" →
      (mergedGenerateConfig model_kwargs generate_config stop).lookup k =
        (generate_config.lookup k).or (model_kwargs.lookup k) := by
    intro k hk
    cases stop with
    | nil =>
      rw [show mergedGenerateConfig model_kwargs generate_config [] =
        dictMerge model_kwargs generate_config from rfl]
      exact dictMerge_lookup _ _ k
    | cons s ss =>
      have heq : mergedGenerateConfig model_kwargs generate_config (s :: ss) =
          setItem (dictMerge model_kwargs generate_config) "stop"
            (.list ((s :: ss).map .str)) := by
        simp [mergedGenerateConfig]
      rw [heq, setItem_lookup_other _ "stop" k _ hk]
      exact dictMerge_lookup _ _ k
  refine ⟨hmerge, fun hstop => ?_, fun hstop => ?_, fun k hk1 hk2 => ?_, ?_⟩
  · have heq : mergedGenerateConfig model_kwargs generate_config stop =
        setItem (dictMerge model_kwargs generate_config) "stop"
          (.list (stop.map .str)) := by
      cases stop with
      | nil => exact absurd rfl hstop
      | cons s ss => simp [mergedGenerateConfig]
    constructor
    · rw [heq]
      exact setItem_lookup_self _ "stop" _
    · rw [streamMergedConfig_lookup_other _ _ _ "stop" (by decide), heq]
      exact setItem_lookup_self _ "stop" _
  · subst hstop
    rfl
  · rw [streamMergedConfig_lookup_other _ _ _ k hk2]
    exact hmerge k hk1
  · exact streamMergedConfig_stream_on model_kwargs generate_config stop

/-- Witness for C4 (amended) at concrete inputs: call-time `temperature`
overrides the construction-time one, the explicit stop list overrides the
`stop` present in the defaults for both the plain and the chunked-stream
merge, and the chunked-stream options carry a truthy `stream` entry. -/
theorem claim_C4_witness :
    (mergedGenerateConfig [("temperature", PyVal.int 1), ("stop", PyVal.str "old")]
        [("temperature", PyVal.int 2)] ["x"]).lookup "temperature" = some (PyVal.int 2)
    ∧ (mergedGenerateConfig [("temperature", PyVal.int 1), ("stop", PyVal.str "old")]
        [("temperature", PyVal.int 2)] ["x"]).lookup "stop" =
        some (.list [PyVal.str "x"])
    ∧ (streamMergedConfig [("temperature", PyVal.int 1), ("stop", PyVal.str "old")]
        [("temperature", PyVal.int 2)] ["x"]).lookup "stop" =
        some (.list [PyVal.str "x"])
    ∧ ∃ v, (streamMergedConfig [("temperature", PyVal.int 1), ("stop", PyVal.str "old")]
        [("temperature", PyVal.int 2)] ["x"]).lookup "stream" = some v
        ∧ v.truthy = true := by
  have h := claim_C4_amended [("temperature", PyVal.int 1), ("stop", PyVal.str "old")]
    [("temperature", PyVal.int 2)] ["x"]
  have h2 := h.2.1 (by simp)
  exact ⟨(h.1 "temperature" (by decide)).trans rfl, h2.1, h2.2, h.2.2.2.2⟩

theorem except_bind_ok {ε α β : Type} (x : Except ε α) (f : α → Except ε β) (b : β)
    (h : (x >>= f) = .ok b) : ∃ a, x = .ok a ∧ f a = .ok b := by
  cases x with
  | error e => exact Except.noConfusion h
  | ok a => exact ⟨a, rfl, h⟩

/-- A successful `mapM` over `Except` succeeds pointwise, in order. -/
theorem except_mapM_ok {ε α β : Type} (f : α → Except ε β) :
    ∀ (l : List α) (out : List β), l.mapM f = .ok out →
      List.Forall₂ (fun x y => f x = .ok y) l out := by
  intro l
  induction l with
  | nil =>
    intro out h
    rw [List.mapM_nil] at h
    cases h
    exact List.Forall₂.nil
  | cons a l ih =>
    intro out h
    rw [List.mapM_cons] at h
    obtain ⟨b, hb, h2⟩ := except_bind_ok _ _ _ h
    obtain ⟨bs, hbs, h3⟩ := except_bind_ok _ _ _ h2
    cases h3
    exact List.Forall₂.cons hb (ih bs hbs)

theorem forall2_comp {α β γ : Type} {r : α → β → Prop} {s : β → γ → Prop} :
    ∀ {l1 : List α} {l2 : List β} {l3 : List γ},
      List.Forall₂ r l1 l2 → List.Forall₂ s l2 l3 →
      List.Forall₂ (fun a c => ∃ b, r a b ∧ s b c) l1 l3 := by
  intro l1 l2 l3 h1
  induction h1 generalizing l3 with
  | nil =>
    intro h2
    cases h2
    exact List.Forall₂.nil
  | cons hr h1 ih =>
    intro h2
    cases h2 with
    | cons hs h2 => exact List.Forall₂.cons ⟨_, hr, hs⟩ (ih h2)

/-- When the extraction comprehension of `embed_documents` succeeds, it has
issued exactly one `create_embedding` call per input text, in input order,
and the extracted embeddings correspond pointwise to the texts. -/
theorem embedStageOne_ok (create_embedding : String → PyVal) :
    ∀ (texts trace : List String) (vs : List PyVal),
      embedStageOne create_embedding texts = (trace, .ok vs) →
      trace = texts
      ∧ List.Forall₂
          (fun t v => extractEmbedding (create_embedding t) = .ok v) texts vs := by
  intro texts
  induction texts with
  | nil =>
    intro trace vs h
    simp only [embedStageOne] at h
    obtain ⟨h1, h2⟩ := Prod.mk.injEq .. ▸ h
    cases h2
    exact ⟨h1.symm, List.Forall₂.nil⟩
  | cons t ts ih =>
    intro trace vs h
    cases hex : extractEmbedding (create_embedding t) with
    | error e => simp [embedStageOne, hex] at h
    | ok v =>
      cases hst : embedStageOne create_embedding ts with
      | mk tr res =>
        cases res with
        | error e => simp [embedStageOne, hex, hst] at h
        | ok ws =>
          simp only [embedStageOne, hex, hst] at h
          obtain ⟨h1, h2⟩ := Prod.mk.injEq .. ▸ h
          cases h2
          obtain ⟨htr, hall⟩ := ih tr ws hst
          exact ⟨by rw [← h1, htr], List.Forall₂.cons hex hall⟩

/-- C8: for every input list of texts, a successful `embed_documents`
issues exactly one remote `create_embedding` call per text (no batching),
in input order, and returns a list of the same length whose i-th element
is the embedding extracted from the i-th text's response, converted to a
sequence of floats. -/
theorem claim_C8 (create_embedding : String → PyVal) (texts : List String)
    (out : List (List Rat))
    (h : XinferenceEmbeddings.embedDocuments create_embedding texts = .ok out) :
    XinferenceEmbeddings.embedDocumentsTrace create_embedding texts = texts
    ∧ out.length = texts.length
    ∧ List.Forall₂
        (fun t v => ∃ e, extractEmbedding (create_embedding t) = .ok e
          ∧ pyFloatList e = .ok v) texts out := by
  cases hst : embedStageOne create_embedding texts with
  | mk trace res =>
    cases res with
    | error e =>
      unfold XinferenceEmbeddings.embedDocuments at h
      rw [hst] at h
      exact Except.noConfusion h
    | ok vs =>
      unfold XinferenceEmbeddings.embedDocuments at h
      rw [hst] at h
      obtain ⟨htr, hfa⟩ := embedStageOne_ok create_embedding texts trace vs hst
      have hfb := except_mapM_ok pyFloatList vs out h
      refine ⟨?_, ?_, forall2_comp hfa hfb⟩
      · unfold XinferenceEmbeddings.embedDocumentsTrace
        rw [hst]
        exact htr
      · rw [← hfb.length_eq, ← hfa.length_eq]

/-- Witness for C8 at a concrete input: two texts, a mock remote returning
the embedding `[1, 2]` for every text. -/
theorem claim_C8_witness :
    XinferenceEmbeddings.embedDocumentsTrace
      (fun _ => PyVal.dict [("data", PyVal.list
        [PyVal.dict [("embedding", PyVal.list [PyVal.int 1, PyVal.int 2])]])])
      ["a", "b"] = ["a", "b"]
    ∧ ([[((1 : Int) : Rat), ((2 : Int) : Rat)],
        [((1 : Int) : Rat), ((2 : Int) : Rat)]] : List (List Rat)).length = (["a", "b"] : List String).length
    ∧ List.Forall₂
        (fun t v => ∃ e, extractEmbedding
            ((fun _ => PyVal.dict [("data", PyVal.list
              [PyVal.dict [("embedding", PyVal.list [PyVal.int 1, PyVal.int 2])]])]) t) = .ok e
          ∧ pyFloatList e = .ok v)
        ["a", "b"]
        [[((1 : Int) : Rat), ((2 : Int) : Rat)],
         [((1 : Int) : Rat), ((2 : Int) : Rat)]] :=
  claim_C8
    (fun _ => PyVal.dict [("data", PyVal.list
      [PyVal.dict [("embedding", PyVal.list [PyVal.int 1, PyVal.int 2])]])])
    ["a", "b"]
    [[((1 : Int) : Rat), ((2 : Int) : Rat)],
     [((1 : Int) : Rat), ((2 : Int) : Rat)]]
    rfl

/-- The token text of a well-formed streaming fragment: a mapping whose
`choices` entry is a non-empty list headed by a mapping whose `text`
(defaulted to `""`) is a string.  `none` for any other shape. -/
def fragTokenStr (f : PyVal) : Option String :=
  match f with
  | .dict es =>
    match dictGetD es "choices" (.list []) with
    | .list (.dict ces :: _) =>
      match dictGetD ces "text" (.str "") with
      | .str s => some s
      | _ => Option.none
    | _ => Option.none
  | _ => Option.none

/-- A fragment with a token text is truthy, yields exactly that token in
`_stream_generate`, and converts to a chunk with exactly that text (and
some metadata) in `_stream_response_to_generation_chunk`. -/
theorem frag_wf (f : PyVal) (t : String) (h : fragTokenStr f = some t) :
    f.truthy = true
    ∧ streamGenerateStep f = .ok (some (.str t))
    ∧ ∃ info, streamResponseToGenerationChunk f =
        .ok { text := .str t, generation_info := some info } := by
  cases f with
  | dict es =>
    cases hch : dictGetD es "choices" (.list []) with
    | list xs =>
      cases xs with
      | nil => simp [fragTokenStr, hch] at h
      | cons c rest =>
        have hlk : es.lookup "choices" = some (.list (c :: rest)) := by
          revert hch
          unfold dictGetD
          cases hl : es.lookup "choices" with
          | none => intro hch; exact absurd hch (by simp)
          | some v => intro hch; exact congrArg some hch
        have htr : (PyVal.dict es).truthy = true :=
          lookup_some_truthy_dict es "choices" _ hlk
        cases c with
        | dict ces =>
          cases htx : dictGetD ces "text" (.str "") with
          | str s =>
            have hts : t = s := by
              simp [fragTokenStr, hch, htx] at h
              exact h.symm
            subst hts
            refine ⟨htr, ?_, ?_⟩
            · simp [streamGenerateStep, hch, PyVal.truthy, pyIndexZero, htx]
            · refine ⟨[("finish_reason", dictGetD ces "finish_reason" .none),
                ("logprobs", dictGetD ces "logprobs" .none)], ?_⟩
              simp [streamResponseToGenerationChunk, hch, PyVal.truthy, pyIndexZero, htx]
          | none => simp [fragTokenStr, hch, htx] at h
          | bool b => simp [fragTokenStr, hch, htx] at h
          | int n => simp [fragTokenStr, hch, htx] at h
          | float x => simp [fragTokenStr, hch, htx] at h
          | list ys => simp [fragTokenStr, hch, htx] at h
          | dict ds => simp [fragTokenStr, hch, htx] at h
        | none => simp [fragTokenStr, hch] at h
        | bool b => simp [fragTokenStr, hch] at h
        | int n => simp [fragTokenStr, hch] at h
        | float x => simp [fragTokenStr, hch] at h
        | str s => simp [fragTokenStr, hch] at h
        | list ys => simp [fragTokenStr, hch] at h
    | none => simp [fragTokenStr, hch] at h
    | bool b => simp [fragTokenStr, hch] at h
    | int n => simp [fragTokenStr, hch] at h
    | float x => simp [fragTokenStr, hch] at h
    | str s => simp [fragTokenStr, hch] at h
    | dict ds => simp [fragTokenStr, hch] at h
  | none => simp [fragTokenStr] at h
  | bool b => simp [fragTokenStr] at h
  | int n => simp [fragTokenStr] at h
  | float x => simp [fragTokenStr] at h
  | str s => simp [fragTokenStr] at h
  | list xs => simp [fragTokenStr] at h

/-- On a sequence of well-formed fragments the accumulation loop of the
plain streaming call returns the concatenation of all token texts, in
emission order. -/
theorem callStreamLoop_wf (frags : List PyVal)
    (hwf : ∀ f ∈ frags, (fragTokenStr f).isSome = true) :
    ∀ acc, callStreamLoop acc frags =
      .ok (acc ++ String.join (frags.filterMap fragTokenStr)) := by
  induction frags with
  | nil =>
    intro acc
    simp [callStreamLoop, String.join]
  | cons f rest ih =>
    intro acc
    have hf := hwf f (List.mem_cons_self f rest)
    obtain ⟨t, ht⟩ := Option.isSome_iff_exists.mp hf
    obtain ⟨-, hstep, -⟩ := frag_wf f t ht
    have hrec := ih (fun g hg => hwf g (List.mem_cons_of_mem f hg)) (acc ++ t)
    simp only [callStreamLoop, hstep, strConcat]
    rw [hrec, List.filterMap_cons, ht, string_join_cons, String.append_assoc]

/-- On a sequence of well-formed fragments the chunked-stream loop yields
one chunk per fragment, in order, with each chunk's text equal to the
corresponding fragment's first choice's text. -/
theorem streamChunks_wf (frags : List PyVal)
    (hwf : ∀ f ∈ frags, (fragTokenStr f).isSome = true) :
    ∃ chunks, streamChunks frags = .ok chunks
      ∧ chunks.length = frags.length
      ∧ chunks.map GenerationChunk.text =
          frags.map (fun f => PyVal.str ((fragTokenStr f).getD "")) := by
  induction frags with
  | nil => exact ⟨[], rfl, rfl, rfl⟩
  | cons f rest ih =>
    have hf := hwf f (List.mem_cons_self f rest)
    obtain ⟨t, ht⟩ := Option.isSome_iff_exists.mp hf
    obtain ⟨htr, -, info, hconv⟩ := frag_wf f t ht
    obtain ⟨chunks, hck, hlen, hmap⟩ := ih (fun g hg => hwf g (List.mem_cons_of_mem f hg))
    refine ⟨{ text := .str t, generation_info := some info } :: chunks, ?_, ?_, ?_⟩
    · simp [streamChunks, htr, hconv, hck]
    · simp [hlen]
    · simp [hmap, ht]

/-- When the merged config already has a truthy `stream` entry, the
chunked-stream merge changes nothing. -/
theorem streamMergedConfig_of_truthy (model_kwargs generate_config : Dict)
    (stop : List String)
    (h : (dictGetD (mergedGenerateConfig model_kwargs generate_config stop)
        "stream" .none).truthy = true) :
    streamMergedConfig model_kwargs generate_config stop =
      mergedGenerateConfig model_kwargs generate_config stop := by
  cases hl : (mergedGenerateConfig model_kwargs generate_config stop).lookup "stream" with
  | none =>
    unfold dictGetD at h
    rw [hl] at h
    exact absurd h (by simp [PyVal.truthy])
  | some v =>
    have hv : v.truthy = true := by
      unfold dictGetD at h
      rw [hl] at h
      exact h
    simp [streamMergedConfig, hl, hv]

/-- A dictionary with a `stream` entry is non-empty. -/
theorem lookup_some_not_isEmpty (es : Dict) (k : String) (v : PyVal)
    (h : es.lookup k = some v) : es.isEmpty = false := by
  cases es with
  | nil => simp [List.lookup] at h
  | cons kv l => rfl

/-- C1: for every completion call whose merged generate config has a
truthy `stream` flag, the plain call (`_call`/`_acall`) returns exactly
the concatenation, in emission order, of the token texts extracted from
the remote streaming fragments; and the chunked-stream operation
(`_stream`/`_astream`) yields one `GenerationChunk` per fragment in the
same order, each chunk's text equal to the corresponding fragment's first
choice's text.  (Fragments are assumed well formed: mappings with a
non-empty `choices` list headed by a mapping with a string `text`.) -/
theorem claim_C1 (client : RemoteModel) (model_kwargs generate_config : Dict)
    (stop : List String) (prompt : String)
    (hstream : (dictGetD (mergedGenerateConfig model_kwargs generate_config stop)
        "stream" .none).truthy = true)
    (hwf : ∀ f ∈ client.generateStream prompt
        (mergedGenerateConfig model_kwargs generate_config stop),
        (fragTokenStr f).isSome = true) :
    Xinference.call (some client) model_kwargs prompt generate_config stop =
      .ok (.str (String.join
        ((client.generateStream prompt
          (mergedGenerateConfig model_kwargs generate_config stop)).filterMap fragTokenStr)))
    ∧ Xinference.acall (some client) model_kwargs prompt generate_config stop =
      .ok (.str (String.join
        ((client.generateStream prompt
          (mergedGenerateConfig model_kwargs generate_config stop)).filterMap fragTokenStr)))
    ∧ ∃ chunks,
        Xinference.stream (some client) model_kwargs prompt generate_config stop =
          .ok chunks
        ∧ Xinference.astream (some client) model_kwargs prompt generate_config stop =
          .ok chunks
        ∧ chunks.length = (client.generateStream prompt
            (mergedGenerateConfig model_kwargs generate_config stop)).length
        ∧ chunks.map GenerationChunk.text =
            (client.generateStream prompt
              (mergedGenerateConfig model_kwargs generate_config stop)).map
              (fun f => PyVal.str ((fragTokenStr f).getD "")) := by
  cases hl : (mergedGenerateConfig model_kwargs generate_config stop).lookup "stream" with
  | none =>
    exfalso
    unfold dictGetD at hstream
    rw [hl] at hstream
    exact absurd hstream (by simp [PyVal.truthy])
  | some v =>
    have hne : (mergedGenerateConfig model_kwargs generate_config stop).isEmpty = false :=
      lookup_some_not_isEmpty _ "stream" v hl
    have hcond : (!(mergedGenerateConfig model_kwargs generate_config stop).isEmpty &&
        (dictGetD (mergedGenerateConfig model_kwargs generate_config stop)
          "stream" .none).truthy) = true := by
      rw [hne, hstream]
      rfl
    have hcall : Xinference.call (some client) model_kwargs prompt generate_config stop =
        .ok (.str (String.join
          ((client.generateStream prompt
            (mergedGenerateConfig model_kwargs generate_config stop)).filterMap fragTokenStr))) := by
      show callWithModel client prompt
          (mergedGenerateConfig model_kwargs generate_config stop) = _
      unfold callWithModel
      rw [hcond, if_pos rfl, callStreamLoop_wf _ hwf ""]
      simp
    have hsm := streamMergedConfig_of_truthy model_kwargs generate_config stop hstream
    obtain ⟨chunks, hck, hlen, hmap⟩ :=
      streamChunks_wf (client.generateStream prompt
        (mergedGenerateConfig model_kwargs generate_config stop)) hwf
    refine ⟨hcall, hcall, chunks, ?_, ?_, hlen, hmap⟩
    · show streamChunks (client.generateStream prompt
        (streamMergedConfig model_kwargs generate_config stop)) = .ok chunks
      rw [hsm]
      exact hck
    · show streamChunks (client.generateStream prompt
        (streamMergedConfig model_kwargs generate_config stop)) = .ok chunks
      rw [hsm]
      exact hck

/-- Witness for C1 at concrete inputs: a remote stream of two fragments
with token texts `"he"` and `"llo"`; the plain call returns `"hello"` and
the chunked stream yields the two chunk texts in order. -/
theorem claim_C1_witness :
    Xinference.call
      (some { generateOnce := fun _ _ => PyVal.none,
              generateStream := fun _ _ =>
                [PyVal.dict [("choices", PyVal.list
                    [PyVal.dict [("text", PyVal.str "he")]])],
                 PyVal.dict [("choices", PyVal.list
                    [PyVal.dict [("text", PyVal.str "llo")]])]] })
      [] "p" [("stream", PyVal.bool true)] [] = .ok (.str "hello")
    ∧ ∃ chunks,
        Xinference.stream
          (some { generateOnce := fun _ _ => PyVal.none,
                  generateStream := fun _ _ =>
                    [PyVal.dict [("choices", PyVal.list
                        [PyVal.dict [("text", PyVal.str "he")]])],
                     PyVal.dict [("choices", PyVal.list
                        [PyVal.dict [("text", PyVal.str "llo")]])]] })
          [] "p" [("stream", PyVal.bool true)] [] = .ok chunks
        ∧ chunks.map GenerationChunk.text = [PyVal.str "he", PyVal.str "llo"] := by
  have h := claim_C1
    { generateOnce := fun _ _ => PyVal.none,
      generateStream := fun _ _ =>
        [PyVal.dict [("choices", PyVal.list [PyVal.dict [("text", PyVal.str "he")]])],
         PyVal.dict [("choices", PyVal.list [PyVal.dict [("text", PyVal.str "llo")]])]] }
    [] [("stream", PyVal.bool true)] [] "p" (by rfl) (by decide)
  obtain ⟨h1, -, chunks, h3, -, -, h6⟩ := h
  exact ⟨h1, chunks, h3, h6⟩
